import Mathlib

/-!
Shallow embedding of the MOA interactive geospatial canvas (MapComponent,
App, ResultsModal) over exact rationals, together with theorems settling
the specification claims.  Every definition mirrors the corresponding
TypeScript function; JS `||` on numbers (resp. strings) is modelled as
"falls through when the left operand is 0 (resp. the empty string) or
absent".
-/

namespace MOA

/-- `DataPoint` record (`{id, lat, lng, name, value, moValue?}`). -/
structure DataPoint where
  id : String
  lat : ℚ
  lng : ℚ
  name : String
  value : ℚ
  moValue : Option ℚ
deriving DecidableEq, Repr

/-- `Polygon` record (`{id, coordinates: [lat, lng][], name}`). -/
structure Polygon where
  id : String
  coordinates : List (ℚ × ℚ)
  name : String
deriving DecidableEq, Repr

/-- JS `a || b` for an optional number `a`: `b` when `a` is absent or `0`. -/
def jsOrQ (o : Option ℚ) (d : ℚ) : ℚ :=
  match o with
  | some x => if x = 0 then d else x
  | none => d

/-- JS `a || b` for an optional string `a`: `b` when `a` is absent or empty. -/
def jsOrS (o : Option String) (d : String) : String :=
  match o with
  | some s => if s = "" then d else s
  | none => d

/-- The expression `p.moValue || p.value` used by every analytics consumer. -/
def jsEffValue (p : DataPoint) : ℚ :=
  jsOrQ p.moValue p.value

/-! ## Spatial analytics (ResultsModal) -/

/-- One iteration body of the ray-casting loop: the edge `e = ((xi,yi),(xj,yj))`
crosses the horizontal ray from `(x,y)` when
`((yi > y) !== (yj > y)) && (x < (xj - xi) * (y - yi) / (yj - yi) + xi)`. -/
def crossB (x y : ℚ) (e : (ℚ × ℚ) × (ℚ × ℚ)) : Bool :=
  (decide (e.1.2 > y) != decide (e.2.2 > y)) &&
    decide (x < (e.2.1 - e.1.1) * (y - e.1.2) / (e.2.2 - e.1.2) + e.1.1)

/-- The pairs `(coords[i], coords[i-1])` for `i = 1, …, n-1`. -/
def consecPairs : List (ℚ × ℚ) → List ((ℚ × ℚ) × (ℚ × ℚ))
  | a :: b :: rest => (b, a) :: consecPairs (b :: rest)
  | _ => []

/-- The edge pairs `(coords[i], coords[j])` visited by the loop
`for (i = 0, j = n - 1; i < n; j = i++)`: first the wrap-around pair
`(coords[0], coords[n-1])`, then the consecutive pairs. -/
def edgePairs (l : List (ℚ × ℚ)) : List ((ℚ × ℚ) × (ℚ × ℚ)) :=
  match l with
  | [] => []
  | a :: as => (a, (a :: as).getLastD a) :: consecPairs (a :: as)

/-- The even-odd ray-casting loop of `getPolygonAnalysis`: starts with
`inside = false` and flips it on every crossing edge. -/
def rayCast (x y : ℚ) (coordinates : List (ℚ × ℚ)) : Bool :=
  (edgePairs coordinates).foldl
    (fun inside e => if crossB x y e then !inside else inside) false

/-- The point-in-polygon test used by `getPolygonAnalysis`: the test point is
scaled as `x = point.lat * 10`, `y = point.lng * 10` and ray-cast against the
polygon's vertex list. -/
def pointInPolygon (polygon : Polygon) (point : DataPoint) : Bool :=
  rayCast (point.lat * 10) (point.lng * 10) polygon.coordinates

/-- Result record of `calculateStats`; `variance` stands for the quantity
under the square root, so that the reported `std` is `Real.sqrt variance`. -/
structure Stats where
  sum : ℚ
  avg : ℚ
  max : ℚ
  min : ℚ
  variance : ℚ
  count : ℕ
deriving DecidableEq, Repr

/-- `Math.max(...values)` for the nonempty list of values. -/
def listMax : List ℚ → ℚ
  | [] => 0
  | v :: vs => vs.foldl max v

/-- `Math.min(...values)` for the nonempty list of values. -/
def listMin : List ℚ → ℚ
  | [] => 0
  | v :: vs => vs.foldl min v

/-- `calculateStats`: `null` when the point list is empty; otherwise sum,
mean, max, min, count and the mean squared deviation (whose square root the
code reports as `std`) of the values `p.moValue || p.value`. -/
def calculateStats (dataPoints : List DataPoint) : Option Stats :=
  if dataPoints.length = 0 then none
  else
    let values := dataPoints.map jsEffValue
    let sum := values.foldl (· + ·) (0 : ℚ)
    let avg := sum / values.length
    some
      { sum := sum
        avg := avg
        max := listMax values
        min := listMin values
        variance := (values.foldl (fun sq n => sq + (n - avg) ^ 2) (0 : ℚ)) / values.length
        count := values.length }

/-- The `std` field of the code's result: `Math.sqrt` of the mean squared
deviation. -/
noncomputable def Stats.std (s : Stats) : ℝ :=
  Real.sqrt (s.variance : ℝ)

/-- A bucket of `getValueDistribution`. -/
structure Bucket where
  name : String
  min : ℚ
  max : ℚ
  color : String
deriving DecidableEq, Repr

/-- The fixed `ranges` array of `getValueDistribution`. -/
def valueRanges : List Bucket :=
  [⟨"Bajo (< 80)", 0, 80, "#ef4444"⟩,
   ⟨"Medio (80-90)", 80, 90, "#f59e0b"⟩,
   ⟨"Alto (90+)", 90, 100, "#10b981"⟩]

/-- One entry of the distribution result. -/
structure DistEntry where
  name : String
  value : ℕ
  color : String
deriving DecidableEq, Repr

/-- `getValueDistribution`: empty when `calculateStats` returned `null`,
otherwise the per-bucket counts of points whose `p.moValue || p.value` lies
in `[range.min, range.max)`. -/
def getValueDistribution (dataPoints : List DataPoint) : List DistEntry :=
  if calculateStats dataPoints = none then []
  else
    valueRanges.map fun range =>
      { name := range.name
        value := (dataPoints.filter fun p =>
            decide (jsEffValue p ≥ range.min) && decide (jsEffValue p < range.max)).length
        color := range.color }

/-- One entry of the per-polygon analysis. -/
structure PolyAnalysis where
  name : String
  pointsCount : ℕ
  avgValue : ℚ
  totalValue : ℚ
deriving DecidableEq, Repr

/-- `getPolygonAnalysis`: for each polygon, the contained points (ray-cast
test), their count, the mean of their `p.moValue || p.value` (0 when no point
is contained) and their total. -/
def getPolygonAnalysis (dataPoints : List DataPoint) (polygons : List Polygon) :
    List PolyAnalysis :=
  if polygons.length = 0 then []
  else
    polygons.map fun polygon =>
      let pointsInside := dataPoints.filter fun point => pointInPolygon polygon point
      let total := pointsInside.foldl (fun s p => s + jsEffValue p) 0
      { name := polygon.name
        pointsCount := pointsInside.length
        avgValue := if pointsInside.length > 0 then total / pointsInside.length else 0
        totalValue := total }

/-! ## Import path and app-level data store (App) -/

/-- A raw imported record: each recognised column may be absent. -/
structure Row where
  latitud : Option ℚ
  lat : Option ℚ
  latitude : Option ℚ
  longitud : Option ℚ
  lng : Option ℚ
  longitude : Option ℚ
  nombre : Option String
  name : Option String
  valor : Option ℚ
  value : Option ℚ
deriving DecidableEq, Repr

/-- The per-record conversion of `handleExcelDataLoad` at position `index`:
coordinate, name and value are resolved through JS `||` chains
(`row.latitud || row.lat || row.latitude || 0`, …); `rand index` stands for
the `Math.random() * 100` fallback of the value. -/
def rowToPoint (rand : ℕ → ℚ) (index : ℕ) (row : Row) : DataPoint :=
  { id := "point-" ++ toString index
    lat := jsOrQ row.latitud (jsOrQ row.lat (jsOrQ row.latitude 0))
    lng := jsOrQ row.longitud (jsOrQ row.lng (jsOrQ row.longitude 0))
    name := jsOrS row.nombre (jsOrS row.name ("Punto " ++ toString (index + 1)))
    value := jsOrQ row.valor (jsOrQ row.value (rand index))
    moValue := none }

/-- `data.map((row, index) => …)` with an explicit running index. -/
def rowsToPoints (rand : ℕ → ℚ) (index : ℕ) : List Row → List DataPoint
  | [] => []
  | row :: rest => rowToPoint rand index row :: rowsToPoints rand (index + 1) rest

/-- The mapping step of `handleExcelDataLoad` followed by the filter
`point.lat !== 0 && point.lng !== 0`. -/
def importPoints (rand : ℕ → ℚ) (data : List Row) : List DataPoint :=
  (rowsToPoints rand 0 data).filter fun point =>
    decide (point.lat ≠ 0) && decide (point.lng ≠ 0)

/-- The App-level shared data store. -/
structure AppState where
  dataPoints : List DataPoint
  polygons : List Polygon
  excelData : List Row
deriving DecidableEq, Repr

/-- `handleAddPolygon`: appends the new polygon. -/
def handleAddPolygon (polygon : Polygon) (s : AppState) : AppState :=
  { s with polygons := s.polygons ++ [polygon] }

/-- `handleAddPoint`: appends the new point. -/
def handleAddPoint (point : DataPoint) (s : AppState) : AppState :=
  { s with dataPoints := s.dataPoints ++ [point] }

/-- `handleExcelDataLoad`: stores the raw rows and sets the point list to the
imported batch. -/
def handleExcelDataLoad (rand : ℕ → ℚ) (data : List Row) (s : AppState) : AppState :=
  { s with excelData := data, dataPoints := importPoints rand data }

/-! ## Drawing session (MapComponent) -/

/-- The MapComponent state pieces relevant to the drawing session. -/
structure MapState where
  isDrawingPolygon : Bool
  isAddingPoint : Bool
  currentPolygonPoints : List (ℚ × ℚ)
  pendingPoint : Option (ℚ × ℚ)
  showPointModal : Bool
deriving DecidableEq, Repr

/-- `finishPolygon`: materializes a polygon only when at least 3 vertices are
accumulated (id from the clock value `now`, sequential auto-name), and in
every case clears the vertex list and leaves polygon-drawing mode. -/
def finishPolygon (now : String) (m : MapState) (a : AppState) : MapState × AppState :=
  let a' :=
    if m.currentPolygonPoints.length ≥ 3 then
      handleAddPolygon
        { id := "polygon-" ++ now
          coordinates := m.currentPolygonPoints
          name := "Polígono " ++ toString (a.polygons.length + 1) } a
    else a
  ({ m with currentPolygonPoints := [], isDrawingPolygon := false }, a')

/-- `cancelDrawing`: leaves both drawing modes and clears the vertex list. -/
def cancelDrawing (m : MapState) : MapState :=
  { m with isDrawingPolygon := false, isAddingPoint := false, currentPolygonPoints := [] }

/-! ## Viewport controller and projection (MapComponent) -/

/-- `zoomIn`: `Math.min(prev * 1.5, 20)`. -/
def zoomIn (z : ℚ) : ℚ := min (z * 1.5) 20

/-- `zoomOut`: `Math.max(prev / 1.5, 0.1)`. -/
def zoomOut (z : ℚ) : ℚ := max (z / 1.5) 0.1

/-- The tile zoom level used by the coordinate conversions:
`Math.max(1, Math.min(18, Math.round(zoom + 10)))`. -/
def tileZOf (zoom : ℚ) : ℤ := max 1 (min 18 (round (zoom + 10)))

/-- The longitude-to-tile part of `latLngToTile` (the latitude part involves
only the other output): `Math.floor((lng + 180) / 360 * n)` with `n = 2^z`. -/
def latLngToTileX (lng : ℚ) (n : ℚ) : ℤ := Int.floor ((lng + 180) / 360 * n)

/-- The tile-to-longitude part of `tileToLatLng`: `x / n * 360 - 180`. -/
def tileXToLng (x : ℚ) (n : ℚ) : ℚ := x / n * 360 - 180

/-- The horizontal component of `latLngToScreen` for a given zoom factor,
map-center pan offset and viewport width.  Note the tile coordinate produced
by `latLngToTile` is an integer (floored). -/
def latLngToScreenX (zoom mapCenterX rectWidth lng : ℚ) : ℚ :=
  let n : ℚ := 2 ^ (tileZOf zoom).toNat
  let tx := latLngToTileX lng n
  let pixelX := ((tx : ℚ) - n / 2) * 256
  (pixelX - mapCenterX) * zoom + rectWidth / 2

/-- The horizontal component of `screenToLatLng` (producing the longitude)
for a given zoom factor, pan offset, viewport width and viewport left edge. -/
def screenToLngX (zoom mapCenterX rectWidth screenX rectLeft : ℚ) : ℚ :=
  let pixelX := (screenX - rectLeft - rectWidth / 2) / zoom + mapCenterX
  let n : ℚ := 2 ^ (tileZOf zoom).toNat
  let tileX := pixelX / 256 + n / 2
  tileXToLng tileX n

/-! ## Auxiliary definitions for the theorems -/

/-- A point with its raw `value` replaced by the code's effective value and
its `moValue` cleared: used to state that the analytics consumers read a
point only through its effective value. -/
def normalizeEff (p : DataPoint) : DataPoint :=
  { p with value := jsEffValue p, moValue := none }

/-- Deterministic stand-in for the `Math.random() * 100` value fallback. -/
def rand0 : ℕ → ℚ := fun _ => 0

/-- A record whose latitude resolves to `0` but whose longitude resolves to
`5`. -/
def rowHalfZero : Row := ⟨some 0, none, none, none, some 5, none, none, none, none, none⟩

/-- A record whose two coordinates both resolve to `0`. -/
def rowBothZero : Row := ⟨some 0, none, none, some 0, none, none, none, none, none, none⟩

/-- A record resolving to `(40.7, -74.0)`. -/
def rowNY : Row := ⟨some (407 / 10), none, none, some (-74), none, none, none, none, none, none⟩

/-- Four points whose effective values are `[80, 85, 90, 95]`. -/
def statsExample : List DataPoint :=
  [⟨"a", 0, 0, "a", 80, none⟩, ⟨"b", 0, 0, "b", 85, none⟩,
   ⟨"c", 0, 0, "c", 90, none⟩, ⟨"d", 0, 0, "d", 95, none⟩]

/-- A point whose `moValue` is present and equal to `0`, with raw value `5`. -/
def pZeroMo : DataPoint := ⟨"p", 1, 1, "p", 5, some 0⟩

/-- A drawing session with two accumulated vertices. -/
def stateTwoVertices : MapState := ⟨true, false, [(0, 0), (1, 1)], none, false⟩

/-- A point-adding session with a captured pending coordinate. -/
def stateAddingPending : MapState := ⟨false, true, [], some (1, 2), true⟩

/-- The empty app-level data store. -/
def emptyApp : AppState := ⟨[], [], []⟩

/-- A manually added point already present in the data store. -/
def pExisting : DataPoint := ⟨"manual-point-1", 1, 1, "P", 50, some 50⟩

/-- A data store already holding `pExisting`. -/
def appWithPoint : AppState := ⟨[pExisting], [], []⟩

/-! ## Helper lemmas -/

/-- At the default zoom factor 2 the conversion tile zoom level is 12. -/
theorem tileZOf_two : tileZOf 2 = 12 := by
  have h : round ((2 : ℚ) + 10) = 12 := by
    rw [round_eq, Int.floor_eq_iff]
    norm_num
  rw [tileZOf, h]
  decide

/-- The effective value of a normalized point is unchanged. -/
theorem jsEffValue_normalizeEff (p : DataPoint) : jsEffValue (normalizeEff p) = jsEffValue p := by
  simp [normalizeEff, jsEffValue, jsOrQ]

/-- Mapping to effective values is invariant under normalization. -/
theorem map_eff_norm (pts : List DataPoint) :
    (pts.map normalizeEff).map jsEffValue = pts.map jsEffValue := by
  rw [List.map_map]
  exact List.map_congr_left fun a _ => jsEffValue_normalizeEff a

/-- The global statistics are invariant under normalization. -/
theorem calcStats_norm (pts : List DataPoint) :
    calculateStats (pts.map normalizeEff) = calculateStats pts := by
  simp only [calculateStats, List.length_map, map_eff_norm]

/-- The bucket filter commutes with normalization. -/
theorem filter_eff_norm (pts : List DataPoint) (lo hi : ℚ) :
    ((pts.map normalizeEff).filter fun p =>
      decide (jsEffValue p ≥ lo) && decide (jsEffValue p < hi)) =
    ((pts.filter fun p =>
      decide (jsEffValue p ≥ lo) && decide (jsEffValue p < hi)).map normalizeEff) := by
  rw [List.filter_map]
  rfl

/-- The containment filter commutes with normalization (a normalized point
keeps its coordinates). -/
theorem filter_pip_norm (pts : List DataPoint) (poly : Polygon) :
    ((pts.map normalizeEff).filter fun point => pointInPolygon poly point) =
    ((pts.filter fun point => pointInPolygon poly point).map normalizeEff) := by
  rw [List.filter_map]
  rfl

/-! ## C1 -/

/-- C1: the round-trip `screenToLatLng (latLngToScreen lat lng)` does NOT
return `(lat, lng)` within `1e-6` degrees even though zoom factor and pan
offset are unchanged.  At zoom factor 2, pan offset `(0,0)` and an
800-pixel-wide viewport whose left edge is 0, the in-viewport longitude
`0.05` (its screen x is 400, the viewport middle) comes back as `0`, because
`latLngToScreen` floors the tile coordinate through `latLngToTile`: the
round-trip error is `0.05` degrees, far above the `1e-6` tolerance. -/
theorem C1_roundtrip_failure :
    screenToLngX 2 0 800 (latLngToScreenX 2 0 800 (1 / 20)) 0 = 0 ∧
    (1 / 20 : ℚ) - 0 > 1 / 1000000 := by
  constructor
  · have hfl : latLngToTileX (1 / 20) (2 ^ (tileZOf 2).toNat) = 2048 := by
      rw [tileZOf_two, latLngToTileX, Int.floor_eq_iff]
      norm_num [show Int.toNat 12 = 12 from rfl]
    rw [screenToLngX, latLngToScreenX, hfl, tileXToLng, tileZOf_two]
    norm_num [show Int.toNat 12 = 12 from rfl]
  · norm_num

/-! ## C2 -/

/-- C2 counterexample: for the point `pZeroMo`, whose `moValue` is present
and equal to `0` and whose raw value is `5`, the global-statistics consumer
uses the raw value `5`, not `0` (JS `||` treats the present `0` as absent):
the computed average is `5 ≠ 0`. -/
theorem C2_counterexample :
    calculateStats [pZeroMo] =
      some { sum := 5, avg := 5, max := 5, min := 5, variance := 0, count := 1 } ∧
    (5 : ℚ) ≠ 0 := by
  constructor
  · norm_num [calculateStats, pZeroMo, jsEffValue, jsOrQ, listMax, listMin]
  · norm_num

/-- C2 (amended): every analytics consumer (global statistics, value-bucket
distribution, per-polygon aggregates) reads a point only through the
effective value `moValue || value` — i.e. `derivedValue` when it is present
AND nonzero, else the raw `value` — so each consumer is invariant under
replacing every point's raw value by its effective value; but for a point
whose `derivedValue` is present and equal to 0 the effective value is the raw
`value`, not 0. -/
theorem C2_effective_value (pts : List DataPoint) (polys : List Polygon) :
    calculateStats (pts.map normalizeEff) = calculateStats pts ∧
    getValueDistribution (pts.map normalizeEff) = getValueDistribution pts ∧
    getPolygonAnalysis (pts.map normalizeEff) polys = getPolygonAnalysis pts polys ∧
    (∀ p : DataPoint, p.moValue = some 0 → jsEffValue p = p.value) := by
  refine ⟨calcStats_norm pts, ?_, ?_, ?_⟩
  · simp only [getValueDistribution, calcStats_norm, filter_eff_norm, List.length_map]
  · simp only [getPolygonAnalysis, List.length_map, filter_pip_norm, List.foldl_map,
      jsEffValue_normalizeEff]
  · intro p h
    simp [jsEffValue, h, jsOrQ]

/-- Witness for C2: the amended statement at the single-point list
`[pZeroMo]`, whose `moValue` is the present `0`. -/
theorem C2_effective_value_witness : jsEffValue pZeroMo = pZeroMo.value :=
  (C2_effective_value [pZeroMo] []).2.2.2 pZeroMo rfl

/-! ## C3 -/

/-- C3 counterexample: a record whose longitude resolves to `5` (nonzero)
while only its latitude resolves to `0` — so at most one coordinate is `0` —
is nevertheless discarded by the import filter
`point.lat !== 0 && point.lng !== 0`, contradicting "every record where at
most one of the two coordinates is 0 is retained". -/
theorem C3_counterexample :
    jsOrQ rowHalfZero.longitud (jsOrQ rowHalfZero.lng (jsOrQ rowHalfZero.longitude 0)) = 5 ∧
    importPoints rand0 [rowHalfZero] = [] := by
  constructor
  · norm_num [rowHalfZero, jsOrQ]
  · norm_num [importPoints, rowsToPoints, rowToPoint, rowHalfZero, rand0, jsOrQ, jsOrS,
      List.filter]

/-- C3 (amended): the import path retains exactly those records where BOTH
resolved coordinates are nonzero — it discards every record where the
latitude or the longitude resolves to exactly `0` — and importing the
two-record example still yields exactly one retained point. -/
theorem C3_import_filter :
    (∀ (rand : ℕ → ℚ) (data : List Row) (p : DataPoint),
      p ∈ importPoints rand data → p.lat ≠ 0 ∧ p.lng ≠ 0) ∧
    (importPoints rand0 [rowBothZero, rowNY]).length = 1 := by
  constructor
  · intro rand data p hp
    have h := (List.mem_filter.mp hp).2
    simpa using h
  · norm_num [importPoints, rowsToPoints, rowToPoint, rowBothZero, rowNY, rand0, jsOrQ,
      jsOrS, List.filter]

/-- Witness for C3: the point imported from the `(40.7, -74.0)` record is
retained and has both coordinates nonzero. -/
theorem C3_import_filter_witness :
    (rowToPoint rand0 1 rowNY).lat ≠ 0 ∧ (rowToPoint rand0 1 rowNY).lng ≠ 0 :=
  C3_import_filter.1 rand0 [rowBothZero, rowNY] (rowToPoint rand0 1 rowNY)
    (by norm_num [importPoints, rowsToPoints, rowToPoint, rowBothZero, rowNY, rand0,
      jsOrQ, jsOrS, List.filter])

/-! ## C4 -/

/-- C4 counterexample: calling `finishPolygon` with only two accumulated
vertices does leave the polygon list unchanged, but it also exits
polygon-drawing mode — the session reaches `Idle` (both mode flags false)
via `finishPolygon` itself, not only via explicit cancel as claimed. -/
theorem C4_counterexample :
    (finishPolygon "1" stateTwoVertices emptyApp).2.polygons = emptyApp.polygons ∧
    (finishPolygon "1" stateTwoVertices emptyApp).1.isDrawingPolygon = false ∧
    (finishPolygon "1" stateTwoVertices emptyApp).1.isAddingPoint = false := by
  decide

/-- C4 (amended): calling `finishPolygon` with fewer than 3 accumulated
vertices leaves the whole app state (in particular the polygon list)
unchanged, but still clears the in-progress vertex list and leaves
polygon-drawing mode, so the session also returns to `Idle` via finish, not
only via explicit cancel. -/
theorem C4_finish_short (now : String) (m : MapState) (a : AppState)
    (h : m.currentPolygonPoints.length < 3) :
    (finishPolygon now m a).2 = a ∧
    (finishPolygon now m a).1.currentPolygonPoints = [] ∧
    (finishPolygon now m a).1.isDrawingPolygon = false ∧
    (finishPolygon now m a).1.isAddingPoint = m.isAddingPoint ∧
    (finishPolygon now m a).1.pendingPoint = m.pendingPoint := by
  have h' : ¬ m.currentPolygonPoints.length ≥ 3 := Nat.not_le.mpr h
  simp [finishPolygon, h']

/-- Witness for C4: the amended statement at the two-vertex session. -/
theorem C4_finish_short_witness :
    (finishPolygon "1" stateTwoVertices emptyApp).2 = emptyApp ∧
    (finishPolygon "1" stateTwoVertices emptyApp).1.currentPolygonPoints = [] ∧
    (finishPolygon "1" stateTwoVertices emptyApp).1.isDrawingPolygon = false ∧
    (finishPolygon "1" stateTwoVertices emptyApp).1.isAddingPoint =
      stateTwoVertices.isAddingPoint ∧
    (finishPolygon "1" stateTwoVertices emptyApp).1.pendingPoint =
      stateTwoVertices.pendingPoint :=
  C4_finish_short "1" stateTwoVertices emptyApp (by decide)

/-! ## C5 -/

/-- The x-coordinate where the edge line crosses the ray height `y` is the
same whichever endpoint is taken as the base point. -/
theorem crossLine_symm (y xi yi xj yj : ℚ) (h : yj - yi ≠ 0) :
    (xj - xi) * (y - yi) / (yj - yi) + xi = (xi - xj) * (y - yj) / (yi - yj) + xj := by
  have h' : yi - yj ≠ 0 := fun he => h (by linarith)
  field_simp
  ring

/-- The per-edge crossing test is symmetric in the edge's two endpoints. -/
theorem crossB_swap (x y : ℚ) (a b : ℚ × ℚ) : crossB x y (a, b) = crossB x y (b, a) := by
  rcases a with ⟨xi, yi⟩
  rcases b with ⟨xj, yj⟩
  simp only [crossB]
  by_cases h1 : yi > y <;> by_cases h2 : yj > y
  · simp [h1, h2]
  · have hne : yj - yi ≠ 0 :=
      sub_ne_zero.mpr (ne_of_lt (lt_of_le_of_lt (not_lt.mp h2) h1))
    simp [h1, h2, crossLine_symm y xi yi xj yj hne]
  · have hne : yj - yi ≠ 0 :=
      sub_ne_zero.mpr (ne_of_gt (lt_of_le_of_lt (not_lt.mp h1) h2))
    simp [h1, h2, crossLine_symm y xi yi xj yj hne]
  · simp [h1, h2]

/-- Appending a vertex extends the consecutive pairs by one pair built from
the previous last vertex. -/
theorem consecPairs_concat (m : List (ℚ × ℚ)) (v : ℚ × ℚ) :
    consecPairs (m ++ [v]) = consecPairs m ++ ((m.getLast?).map fun b => (v, b)).toList := by
  induction m with
  | nil => simp [consecPairs]
  | cons a t ih =>
    cases t with
    | nil => simp [consecPairs]
    | cons b r =>
      simp only [List.cons_append, consecPairs, List.getLast?_cons_cons, List.append_eq]
      rw [List.cons_append] at ih
      rw [ih]

/-- The consecutive pairs of the reversed list are the endpoint-swapped
consecutive pairs, reversed. -/
theorem consecPairs_reverse (l : List (ℚ × ℚ)) :
    consecPairs l.reverse = ((consecPairs l).map Prod.swap).reverse := by
  induction l with
  | nil => simp [consecPairs]
  | cons a t ih =>
    cases t with
    | nil => simp [consecPairs]
    | cons b r =>
      rw [List.reverse_cons, consecPairs_concat, ih, List.getLast?_reverse]
      simp [consecPairs]

/-- The ray-casting fold computes the parity of the number of crossing
edges. -/
theorem foldl_flip_parity (p : ((ℚ × ℚ) × (ℚ × ℚ)) → Bool)
    (l : List ((ℚ × ℚ) × (ℚ × ℚ))) (b : Bool) :
    l.foldl (fun i e => if p e then !i else i) b = xor b (decide (l.countP p % 2 = 1)) := by
  induction l generalizing b with
  | nil => simp [List.countP_nil]
  | cons a t ih =>
    rw [List.foldl_cons, ih, List.countP_cons]
    by_cases hpa : p a
    · by_cases hd : t.countP p % 2 = 1
      · have hd2 : ¬((t.countP p + 1) % 2 = 1) := by omega
        simp [hpa, hd, hd2]
      · have hd2 : (t.countP p + 1) % 2 = 1 := by omega
        simp [hpa, hd, hd2]
    · simp [hpa]

/-- `rayCast` decides whether an odd number of edges cross the ray. -/
theorem rayCast_eq_parity (x y : ℚ) (coords : List (ℚ × ℚ)) :
    rayCast x y coords = decide ((edgePairs coords).countP (crossB x y) % 2 = 1) := by
  rw [rayCast, foldl_flip_parity]
  simp

/-- `edgePairs` of a nonempty list is the wrap-around pair followed by the
consecutive pairs. -/
theorem edgePairs_head_last (m : List (ℚ × ℚ)) (hd z : ℚ × ℚ)
    (hh : m.head? = some hd) (hz : m.getLast? = some z) :
    edgePairs m = (hd, z) :: consecPairs m := by
  cases m with
  | nil => cases hh
  | cons c cs =>
    have hc : hd = c := by
      injection hh.symm
    subst hc
    simp [edgePairs, List.getLastD_eq_getLast?, hz]

/-- Reversing the vertex list leaves the number of crossing edges
unchanged. -/
theorem countP_edgePairs_reverse (x y : ℚ) (l : List (ℚ × ℚ)) :
    (edgePairs l.reverse).countP (crossB x y) = (edgePairs l).countP (crossB x y) := by
  cases l with
  | nil => simp [edgePairs]
  | cons a t =>
    have h1 : (a :: t).head? = some a := rfl
    have hne : (a :: t) ≠ [] := by simp
    obtain ⟨z, hz⟩ := Option.isSome_iff_exists.mp (List.getLast?_isSome.mpr hne)
    have hrh : (a :: t).reverse.head? = some z := by rw [List.head?_reverse]; exact hz
    have hrl : (a :: t).reverse.getLast? = some a := by rw [List.getLast?_reverse]; exact h1
    rw [edgePairs_head_last _ z a hrh hrl, edgePairs_head_last _ a z h1 hz]
    rw [List.countP_cons, List.countP_cons, consecPairs_reverse, List.countP_reverse,
      List.countP_map]
    have hcc : List.countP (crossB x y ∘ Prod.swap) (consecPairs (a :: t)) =
        List.countP (crossB x y) (consecPairs (a :: t)) := by
      refine List.countP_congr fun e _ => ?_
      rcases e with ⟨u, v⟩
      simp [Function.comp, Prod.swap, crossB_swap x y v u]
    rw [hcc, crossB_swap x y z a]

/-- The even-odd ray-cast classification is invariant under reversing the
vertex list. -/
theorem rayCast_reverse (x y : ℚ) (coords : List (ℚ × ℚ)) :
    rayCast x y coords.reverse = rayCast x y coords := by
  rw [rayCast_eq_parity, rayCast_eq_parity, countP_edgePairs_reverse]

/-- C5: for every polygon and every point, reversing the polygon's vertex
order (opposite winding direction) yields the identical inside/outside
classification from the even-odd ray-casting containment test (which uses
`x = latitude·10`, `y = longitude·10` as the test point's planar
coordinates). -/
theorem C5_winding_invariance (polygon : Polygon) (point : DataPoint) :
    pointInPolygon { polygon with coordinates := polygon.coordinates.reverse } point =
      pointInPolygon polygon point :=
  rayCast_reverse (point.lat * 10) (point.lng * 10) polygon.coordinates

/-! ## C6 -/

/-- C6 counterexample: on points with effective values `[80, 85, 90, 95]` the
code's mean squared deviation is `((-7.5)² + (-2.5)² + 2.5² + 7.5²)/4 =
125/4`, so the reported standard deviation is `√(125/4) ≈ 5.59`, which is NOT
the claimed `sqrt((6.5² + 2.5² + 2.5² + 7.5²)/4)` (the deviation of 80 from
the mean 87.5 is 7.5, not 6.5). -/
theorem C6_counterexample :
    calculateStats statsExample =
      some { sum := 350, avg := 87.5, max := 95, min := 80, variance := 125 / 4, count := 4 } ∧
    Stats.std { sum := 350, avg := 87.5, max := 95, min := 80, variance := 125 / 4, count := 4 } ≠
      Real.sqrt (((6.5 : ℝ) ^ 2 + 2.5 ^ 2 + 2.5 ^ 2 + 7.5 ^ 2) / 4) := by
  constructor
  · norm_num [calculateStats, statsExample, jsEffValue, jsOrQ, listMax, listMin]
  · rw [Stats.std]
    intro he
    have hlt : Real.sqrt (((6.5 : ℝ) ^ 2 + 2.5 ^ 2 + 2.5 ^ 2 + 7.5 ^ 2) / 4) <
        Real.sqrt (((125 / 4 : ℚ) : ℝ)) :=
      Real.sqrt_lt_sqrt (by norm_num) (by norm_num)
    exact (ne_of_lt hlt).symm he

/-- C6 (amended): the global statistics return `null` exactly when the point
list is empty, and on effective values `[80, 85, 90, 95]` give sum 350, mean
87.5, max 95, min 80, count 4 and standard deviation
`sqrt((7.5² + 2.5² + 2.5² + 7.5²)/4)`. -/
theorem C6_stats :
    (∀ pts : List DataPoint, calculateStats pts = none ↔ pts = []) ∧
    calculateStats statsExample =
      some { sum := 350, avg := 87.5, max := 95, min := 80,
             variance := ((7.5 : ℚ) ^ 2 + 2.5 ^ 2 + 2.5 ^ 2 + 7.5 ^ 2) / 4, count := 4 } ∧
    Stats.std { sum := 350, avg := 87.5, max := 95, min := 80,
                variance := ((7.5 : ℚ) ^ 2 + 2.5 ^ 2 + 2.5 ^ 2 + 7.5 ^ 2) / 4, count := 4 } =
      Real.sqrt (((7.5 : ℝ) ^ 2 + 2.5 ^ 2 + 2.5 ^ 2 + 7.5 ^ 2) / 4) := by
  refine ⟨?_, ?_, ?_⟩
  · intro pts
    cases pts with
    | nil => simp [calculateStats]
    | cons a t => simp [calculateStats]
  · norm_num [calculateStats, statsExample, jsEffValue, jsOrQ, listMax, listMin]
  · rw [Stats.std]
    congr 1
    push_cast
    norm_num

/-! ## C7 -/

/-- C7: `zoomIn` multiplies the zoom factor by 1.5 and `zoomOut` divides it
by 1.5; on valid zoom factors both agree with full clamping to `[0.1, 20]`;
`zoomIn` followed by `zoomOut` returns the original value exactly whenever
the upper clamp does not engage, and saturates at `40/3` when it does. -/
theorem C7_zoom_inverse (z : ℚ) (h1 : 0.1 ≤ z) (h2 : z ≤ 20) :
    (zoomIn z = max 0.1 (min (z * 1.5) 20) ∧ zoomOut z = max 0.1 (min (z / 1.5) 20)) ∧
    (z * 1.5 ≤ 20 → zoomOut (zoomIn z) = z) ∧
    (20 < z * 1.5 → zoomOut (zoomIn z) = 40 / 3) := by
  have hz15 : z / 1.5 ≤ 20 := by
    rw [div_le_iff₀ (by norm_num : (0 : ℚ) < 1.5)]
    nlinarith
  refine ⟨⟨?_, ?_⟩, ?_, ?_⟩
  · rw [zoomIn, max_eq_right]
    refine le_min ?_ (by norm_num)
    nlinarith
  · rw [zoomOut, max_comm, min_eq_left hz15]
  · intro h3
    rw [zoomIn, min_eq_left h3, zoomOut, show z * 1.5 / 1.5 = z by ring]
    exact max_eq_left h1
  · intro h3
    rw [zoomIn, min_eq_right (le_of_lt h3), zoomOut,
      max_eq_left (by norm_num : (0.1 : ℚ) ≤ 20 / 1.5)]
    norm_num

/-- Witness for C7: from zoom factor 2, `zoomIn` then `zoomOut` returns 2. -/
theorem C7_zoom_inverse_witness : zoomOut (zoomIn 2) = 2 :=
  (C7_zoom_inverse 2 (by norm_num) (by norm_num)).2.1 (by norm_num)

/-! ## C8 -/

/-- C8 counterexample: from the point-adding state with a captured pending
coordinate, `cancelDrawing` leaves `pendingPoint` untouched — the pending
geographic coordinate is NOT discarded, contradicting the claim that none
remains. -/
theorem C8_counterexample :
    (cancelDrawing stateAddingPending).pendingPoint = some (1, 2) ∧
    (some ((1 : ℚ), (2 : ℚ)) ≠ (none : Option (ℚ × ℚ))) := by
  decide

/-- C8 (amended): `cancelDrawing`, from any state (in particular from either
drawing state), returns the session to `Idle` (both mode flags false) and
empties the accumulated vertex list, but leaves the pending geographic
coordinate (and the modal flag) unchanged. -/
theorem C8_cancel_drawing (m : MapState) :
    (cancelDrawing m).isDrawingPolygon = false ∧
    (cancelDrawing m).isAddingPoint = false ∧
    (cancelDrawing m).currentPolygonPoints = [] ∧
    (cancelDrawing m).pendingPoint = m.pendingPoint ∧
    (cancelDrawing m).showPointModal = m.showPointModal := by
  simp [cancelDrawing]

/-! ## C9 -/

/-- C9 counterexample: loading a new (here empty) batch of imported records
replaces the whole point list: the previously present point `pExisting` is
deleted from the data store, contradicting append-only ownership. -/
theorem C9_counterexample :
    pExisting ∈ appWithPoint.dataPoints ∧
    (handleExcelDataLoad rand0 [] appWithPoint).dataPoints = [] := by
  decide

/-- C9 (amended): `handleAddPoint` and `handleAddPolygon` only append to the
data store, but `handleExcelDataLoad` replaces the entire point list with the
newly imported batch, discarding any points already present (the polygon list
is left unchanged by all three operations). -/
theorem C9_store_operations (s : AppState) (p : DataPoint) (pg : Polygon)
    (rand : ℕ → ℚ) (data : List Row) :
    (handleAddPoint p s).dataPoints = s.dataPoints ++ [p] ∧
    (handleAddPoint p s).polygons = s.polygons ∧
    (handleAddPolygon pg s).polygons = s.polygons ++ [pg] ∧
    (handleAddPolygon pg s).dataPoints = s.dataPoints ∧
    (handleExcelDataLoad rand data s).polygons = s.polygons ∧
    (handleExcelDataLoad rand data s).dataPoints = importPoints rand data := by
  simp [handleAddPoint, handleAddPolygon, handleExcelDataLoad]

/-! ## C10 -/

/-- C10: in the ray-casting edge test, whenever the first conjunct
`(yi > y) !== (yj > y)` holds, the divisor `yj - yi` of the second conjunct
is nonzero (the two vertices lie on opposite sides of the ray height), and
the whole test reduces to the division comparison. -/
theorem C10_division_guard (x y : ℚ) (vi vj : ℚ × ℚ)
    (h : (decide (vi.2 > y) != decide (vj.2 > y)) = true) :
    vj.2 - vi.2 ≠ 0 ∧
    crossB x y (vi, vj) =
      decide (x < (vj.1 - vi.1) * (y - vi.2) / (vj.2 - vi.2) + vi.1) := by
  have hne : vi.2 ≠ vj.2 := by
    intro he
    rw [he] at h
    simp at h
  refine ⟨sub_ne_zero.mpr (Ne.symm hne), ?_⟩
  simp [crossB, h]

/-- Witness for C10: a vertical edge crossing the ray height `y = 0`. -/
theorem C10_division_guard_witness :
    ((0 : ℚ), (-1 : ℚ)).2 - ((0 : ℚ), (1 : ℚ)).2 ≠ 0 :=
  (C10_division_guard 0 0 (0, 1) (0, -1) (by decide)).1

end MOA
